import Mathlib

/-!
Verification of the local persistence and validated backup/restore subsystem
of the squaredance repository: a shallow embedding of
`src/utils/backup.ts`, `src/utils/local-storage.ts`, `src/schemas/index.ts`
and the name validation of `ProfileModal.tsx`, together with theorems about
the embedded operations.

Modelling conventions:
* JSON values are the inductive `Json`; numbers are exact rationals
  (a JavaScript number that survives `JSON.stringify`/`JSON.parse` is
  reproduced exactly, so the string layer of the store is abstracted by
  whether `JSON.parse` succeeds: see `Stored`).
* `localStorage` is a total map `String → Option Stored`; `setItem` may
  throw in the browser (quota), which is modelled by a `WriteOracle`
  parameter where a claim is about write failure.
* Zod schemas become parsers `Json → Option α`: `none` is a thrown
  `ZodError` (for `.parse`) or an unsuccessful `safeParse`.
-/

namespace Squaredance

/-- A JSON value. Numbers are exact rationals. -/
inductive Json where
  | null
  | bool (b : Bool)
  | num (q : Rat)
  | str (s : String)
  | arr (elems : List Json)
  | obj (fields : List (String × Json))

/-- A raw string held in the browser store, abstracted by how `JSON.parse`
treats it: `json j` stands for any string that parses to the value `j`
(in particular the output of `JSON.stringify j`), and `malformed s` for a
string on which `JSON.parse` throws. -/
inductive Stored where
  | json (j : Json)
  | malformed (s : String)

/-- `JSON.parse` on a raw stored string: `none` models a thrown `SyntaxError`. -/
def Stored.jsonParse : Stored → Option Json
  | .json j => some j
  | .malformed _ => none

/-- JavaScript truthiness of the raw stored string (`if (!json) ...`):
only the empty string is falsy, and a string that parses as JSON is never
empty. -/
def Stored.truthy : Stored → Bool
  | .json _ => true
  | .malformed s => !(s == "")

/-- The browser `localStorage`, keyed by strings; `none` means the key is absent. -/
abbrev Store := String → Option Stored

/-- A store with no keys set. -/
def Store.empty : Store := fun _ => none

/-- `localStorage.getItem` (returning `null` for an absent key). -/
def Store.getItem (s : Store) (k : String) : Option Stored := s k

/-- The state change of a successful `localStorage.setItem`. -/
def Store.setItem (s : Store) (k : String) (v : Stored) : Store :=
  fun k2 => if k2 = k then some v else s k2

/-- `localStorage.removeItem` (silently succeeds when the key is absent). -/
def Store.removeItem (s : Store) (k : String) : Store :=
  fun k2 => if k2 = k then none else s k2

/-! ## Schemas (`src/schemas/index.ts`) -/

/-- A hexadecimal digit, either case. -/
def isHexDigit (c : Char) : Bool :=
  ('0' ≤ c && c ≤ '9') || ('a' ≤ c && c ≤ 'f') || ('A' ≤ c && c ≤ 'F')

/-- Split a character list at every occurrence of `sep` (the single-character
case of `String.prototype.split`). -/
def splitOnChar (sep : Char) : List Char → List (List Char)
  | [] => [[]]
  | c :: cs =>
    if c == sep then [] :: splitOnChar sep cs
    else
      match splitOnChar sep cs with
      | [] => [[c]]
      | g :: gs => (c :: g) :: gs

/-- Zod `z.string().uuid()`: five hyphen-separated hexadecimal groups of
lengths 8, 4, 4, 4 and 12. -/
def isUuid (s : String) : Bool :=
  match splitOnChar '-' s.toList with
  | [a, b, c, d, e] =>
      a.length == 8 && b.length == 4 && c.length == 4 && d.length == 4 &&
      e.length == 12 && (a ++ b ++ c ++ d ++ e).all isHexDigit
  | _ => false

/-- Zod `z.number().int().min(0)` on an already-extracted number. -/
def ratIsNonnegInt (q : Rat) : Bool := q.den == 1 && decide (0 ≤ q.num)

/-- Zod `z.number().int().positive()` on an already-extracted number. -/
def ratIsPosInt (q : Rat) : Bool := q.den == 1 && decide (0 < q.num)

/-- The `stats` record of a user profile (`UserStatsSchema`'s output type). -/
structure UserStats where
  totalSessions : Rat
  totalCalls : Rat
  successfulSequences : Rat
  failedSequences : Rat
deriving DecidableEq

/-- The optional `preferences` record (`UserPreferencesSchema`'s output type);
`none` in a field means the key is absent. -/
structure UserPreferences where
  autoPlayAnimations : Option Bool
  showFlowHints : Option Bool
deriving DecidableEq

/-- A user profile (`UserProfileSchema`'s output type). -/
structure UserProfile where
  id : String
  name : String
  createdAt : Rat
  stats : UserStats
  preferences : Option UserPreferences
deriving DecidableEq

/-- `UserStatsSchema.safeParse`: an object with the four counter fields, each a
non-negative integer; unknown keys are stripped. -/
def userStatsParse (j : Json) : Option UserStats :=
  match j with
  | .obj fs =>
    match fs.lookup "totalSessions", fs.lookup "totalCalls",
          fs.lookup "successfulSequences", fs.lookup "failedSequences" with
    | some (.num a), some (.num b), some (.num c), some (.num d) =>
      if ratIsNonnegInt a && ratIsNonnegInt b && ratIsNonnegInt c && ratIsNonnegInt d then
        some ⟨a, b, c, d⟩
      else none
    | _, _, _, _ => none
  | _ => none

/-- `UserPreferencesSchema.safeParse`: an object whose two optional fields, when
present, must be booleans. -/
def userPreferencesParse (j : Json) : Option UserPreferences :=
  match j with
  | .obj fs =>
    match fs.lookup "autoPlayAnimations", fs.lookup "showFlowHints" with
    | none, none => some ⟨none, none⟩
    | none, some (.bool h) => some ⟨none, some h⟩
    | some (.bool a), none => some ⟨some a, none⟩
    | some (.bool a), some (.bool h) => some ⟨some a, some h⟩
    | _, _ => none
  | _ => none

/-- `UserProfileSchema.safeParse`: `id` a UUID string, `name` a string of
length 1–20 (no character-set constraint in the schema), `createdAt` a positive
integer, `stats` per `UserStatsSchema`, `preferences` optional per
`UserPreferencesSchema`. -/
def userProfileParse (j : Json) : Option UserProfile :=
  match j with
  | .obj fs =>
    match fs.lookup "id", fs.lookup "name", fs.lookup "createdAt", fs.lookup "stats" with
    | some (.str idStr), some (.str nm), some (.num created), some statsJson =>
      if isUuid idStr && decide (1 ≤ nm.length) && decide (nm.length ≤ 20) &&
          ratIsPosInt created then
        match userStatsParse statsJson with
        | some st =>
          match fs.lookup "preferences" with
          | none => some ⟨idStr, nm, created, st, none⟩
          | some p =>
            match userPreferencesParse p with
            | some pr => some ⟨idStr, nm, created, st, some pr⟩
            | none => none
        | none => none
      else none
    | _, _, _, _ => none
  | _ => none

/-- The JSON value a parsed `UserStats` denotes (what zod's parse output looks
like as a JS object, and what `JSON.stringify` serializes). -/
def UserStats.toJson (s : UserStats) : Json :=
  .obj [("totalSessions", .num s.totalSessions), ("totalCalls", .num s.totalCalls),
        ("successfulSequences", .num s.successfulSequences),
        ("failedSequences", .num s.failedSequences)]

/-- The JSON value a parsed `UserPreferences` denotes; absent optional fields
produce no key. -/
def UserPreferences.toJson (p : UserPreferences) : Json :=
  .obj ((match p.autoPlayAnimations with
         | some a => [("autoPlayAnimations", Json.bool a)]
         | none => []) ++
        (match p.showFlowHints with
         | some h => [("showFlowHints", Json.bool h)]
         | none => []))

/-- The JSON value a parsed `UserProfile` denotes; an absent `preferences`
produces no key. -/
def UserProfile.toJson (u : UserProfile) : Json :=
  .obj (("id", Json.str u.id) :: ("name", Json.str u.name) ::
        ("createdAt", Json.num u.createdAt) :: ("stats", u.stats.toJson) ::
        (match u.preferences with
         | some p => [("preferences", p.toJson)]
         | none => []))

/-- The schema constraints of `UserStatsSchema`, on a parsed value. -/
def UserStats.valid (s : UserStats) : Bool :=
  ratIsNonnegInt s.totalSessions && ratIsNonnegInt s.totalCalls &&
  ratIsNonnegInt s.successfulSequences && ratIsNonnegInt s.failedSequences

/-- The schema constraints of `UserProfileSchema`, on a parsed value. -/
def UserProfile.valid (u : UserProfile) : Bool :=
  isUuid u.id && decide (1 ≤ u.name.length) && decide (u.name.length ≤ 20) &&
  ratIsPosInt u.createdAt && u.stats.valid

/-! ## The store adapter (`src/utils/local-storage.ts`) -/

/-- `STORAGE_KEYS`: the keys this application recognizes as its own
(`Object.values(STORAGE_KEYS)`). -/
def STORAGE_KEYS : List String := ["squaredance-user-profile"]

/-- The single profile key, `'squaredance-user-profile'`. -/
def profileKey : String := "squaredance-user-profile"

/-- Models whether a given `localStorage.setItem` call succeeds (`true`) or
throws, e.g. a `QuotaExceededError` or an unavailable store (`false`). -/
abbrev WriteOracle := String → Stored → Bool

/-- `localStorage.setItem` with its possible exception made explicit. -/
def trySetItem (ok : WriteOracle) (s : Store) (k : String) (v : Stored) :
    Except String Store :=
  if ok k v then .ok (s.setItem k v) else .error "QuotaExceededError"

/-- `saveToLocalStorage`: `JSON.stringify` the data (total on `Json` values)
and `setItem` it, catching any failure and only logging it; the function
returns `void` (here the `Unit` component) in both cases. -/
def saveToLocalStorage (ok : WriteOracle) (k : String) (data : Json) (s : Store) :
    Unit × Store :=
  match trySetItem ok s k (.json data) with
  | .ok s2 => ((), s2)
  | .error _ => ((), s)

/-- `loadFromLocalStorage`: read the raw value (`if (!json) return null`),
`JSON.parse` it (a throw is caught and yields `null`), then `safeParse` it
against the supplied schema (`null` on failure). -/
def loadFromLocalStorage {α : Type} (k : String) (schemaParse : Json → Option α)
    (s : Store) : Option α :=
  match s.getItem k with
  | none => none
  | some stored =>
    if stored.truthy then
      match stored.jsonParse with
      | none => none
      | some j => schemaParse j
    else none

/-- `removeFromLocalStorage` (the `removeItem` browser call does not throw). -/
def removeFromLocalStorage (k : String) (s : Store) : Store := s.removeItem k

/-- `clearAllLocalStorage`: remove every key of `STORAGE_KEYS`. -/
def clearAllLocalStorage (s : Store) : Store :=
  STORAGE_KEYS.foldl (fun st k => st.removeItem k) s

/-! ## The backup codec (`src/utils/backup.ts`) -/

/-- The output type of `BackupDataSchema` (a validated `BackupData`). -/
structure BackupData where
  version : String
  timestamp : Rat
  user : Option UserProfile
deriving DecidableEq

/-- What `exportBackup` actually returns: the `user` field is the raw parsed
JSON from the store (`Json.null` when absent), not schema-validated. -/
structure RawBackup where
  version : String
  timestamp : Rat
  user : Json

/-- `BackupDataSchema.parse`: `version` any string, `timestamp` any number,
`user` a nullable `UserProfileSchema` value (the key itself is required). -/
def backupDataParse (j : Json) : Option BackupData :=
  match j with
  | .obj fs =>
    match fs.lookup "version", fs.lookup "timestamp", fs.lookup "user" with
    | some (.str v), some (.num t), some userJson =>
      match userJson with
      | .null => some ⟨v, t, none⟩
      | _ =>
        match userProfileParse userJson with
        | some u => some ⟨v, t, some u⟩
        | none => none
    | _, _, _ => none
  | _ => none

/-- `validateBackup`: `BackupDataSchema.parse` inside try/catch, returning
`null` on a `ZodError`. -/
def validateBackup (j : Json) : Option BackupData := backupDataParse j

/-- `exportBackup`: read the raw stored profile string; when absent (or falsy,
i.e. the empty string) the `user` is `null`, otherwise it is `JSON.parse` of
the raw string — with no schema validation. A `JSON.parse` throw is NOT
caught, so the result is an `Option`: `none` models the escaping exception.
The current time `Date.now()` is passed in as `now`. -/
def exportBackup (now : Rat) (s : Store) : Option RawBackup :=
  match s.getItem profileKey with
  | none => some ⟨"1.0.0", now, .null⟩
  | some stored =>
    if stored.truthy then
      match stored.jsonParse with
      | some j => some ⟨"1.0.0", now, j⟩
      | none => none
    else some ⟨"1.0.0", now, .null⟩

/-- `importBackup`: validate the envelope, returning `false` untouched on
failure; otherwise re-validate a present `user` with `UserProfileSchema.parse`
(a throw is caught and yields `false`) and `setItem` its serialization, or
`removeItem` the profile key when `user` is `null`; returns `true`. -/
def importBackup (j : Json) (s : Store) : Bool × Store :=
  match validateBackup j with
  | none => (false, s)
  | some b =>
    match b.user with
    | some u =>
      match userProfileParse u.toJson with
      | some validUser => (true, s.setItem profileKey (.json validUser.toJson))
      | none => (false, s)
    | none => (true, s.removeItem profileKey)

/-! ## Caller-layer name validation (`ProfileModal.tsx`, `validateName`) -/

/-- A character matched by the JavaScript regex class `\s`. -/
def jsWhitespaceChar (c : Char) : Bool :=
  c == ' ' || c == '\t' || c == '\n' || c == '\r' || c == '\x0b' || c == '\x0c' ||
  c.toNat == 0x00A0 || c.toNat == 0x1680 || (0x2000 ≤ c.toNat && c.toNat ≤ 0x200A) ||
  c.toNat == 0x2028 || c.toNat == 0x2029 || c.toNat == 0x202F ||
  c.toNat == 0x205F || c.toNat == 0x3000 || c.toNat == 0xFEFF

/-- A character matched by the regex class `[a-zA-Z0-9\s_-]`. -/
def validNameChar (c : Char) : Bool :=
  ('a' ≤ c && c ≤ 'z') || ('A' ≤ c && c ≤ 'Z') || ('0' ≤ c && c ≤ '9') ||
  jsWhitespaceChar c || c == '_' || c == '-'

/-- JavaScript `String.prototype.trim`. -/
def jsTrim (s : String) : String :=
  String.mk (((s.toList.dropWhile jsWhitespaceChar).reverse.dropWhile
    jsWhitespaceChar).reverse)

/-- `validateName` of `ProfileModal`: returns an error message or `null`; the
checks run in order: required, length at most 20, the character-set regex
`^[a-zA-Z0-9\s_-]+$`, then no leading/trailing whitespace. -/
def validateName (value : String) : Option String :=
  if value == "" then some "Name is required"
  else if value.length > 20 then some "Name must be 20 characters or less"
  else if !(value.toList.all validNameChar) then
    some "Only letters, numbers, spaces, dash (-), and underscore (_) allowed"
  else if !(value == jsTrim value) then some "Name cannot start or end with spaces"
  else none

/-! ## Concrete sample data -/

/-- A schema-valid profile (the UUID is the one used by the repository tests). -/
def aliceProfile : UserProfile :=
  { id := "123e4567-e89b-12d3-a456-426614174000", name := "Alice",
    createdAt := 1, stats := ⟨0, 0, 0, 0⟩, preferences := none }

/-- A profile whose name contains a character outside `[a-zA-Z0-9\s_-]`. -/
def bobBangProfile : UserProfile := { aliceProfile with name := "Bob!" }

/-- A profile named `"Bob Smith-99_"`. -/
def bobSmithProfile : UserProfile := { aliceProfile with name := "Bob Smith-99_" }

/-- A profile whose name is 21 `'a'` characters. -/
def longNameProfile : UserProfile :=
  { aliceProfile with name := "aaaaaaaaaaaaaaaaaaaaa" }

/-- The invalid envelope of the spec scenario: only a `version` field. -/
def badEnvelopeJson : Json := .obj [("version", .str "1.0.0")]

/-- A valid envelope with `user: null`. -/
def nullUserEnvelopeJson : Json :=
  .obj [("version", .str "1.0.0"), ("timestamp", .num 1), ("user", .null)]

/-- A valid envelope carrying `aliceProfile`. -/
def aliceEnvelopeJson : Json :=
  .obj [("version", .str "1.0.0"), ("timestamp", .num 1),
        ("user", aliceProfile.toJson)]

/-! ## Helper lemmas -/

/-- Parsing the JSON denotation of a parsed `UserPreferences` gives it back. -/
theorem userPreferencesParse_toJson (p : UserPreferences) :
    userPreferencesParse p.toJson = some p := by
  obtain ⟨a, h⟩ := p
  cases a <;> cases h <;> rfl

/-- A `UserStatsSchema` parse output satisfies the schema constraints. -/
theorem userStatsParse_valid {j : Json} {s : UserStats}
    (h : userStatsParse j = some s) : s.valid = true := by
  unfold userStatsParse at h
  split at h
  · split at h
    · split at h
      · rename_i hcond
        injection h with h2
        subst h2
        exact hcond
      · simp at h
    · simp at h
  · simp at h

/-- Parsing the JSON denotation of a schema-valid `UserStats` gives it back. -/
theorem userStatsParse_toJson {s : UserStats} (h : s.valid = true) :
    userStatsParse s.toJson = some s := by
  have e : userStatsParse s.toJson =
      if (ratIsNonnegInt s.totalSessions && ratIsNonnegInt s.totalCalls &&
          ratIsNonnegInt s.successfulSequences && ratIsNonnegInt s.failedSequences) = true
      then some (⟨s.totalSessions, s.totalCalls, s.successfulSequences,
                  s.failedSequences⟩ : UserStats)
      else none := rfl
  unfold UserStats.valid at h
  rw [e, if_pos h]

/-- A `UserProfileSchema` parse output satisfies the schema constraints. -/
theorem userProfileParse_valid {j : Json} {u : UserProfile}
    (h : userProfileParse j = some u) : u.valid = true := by
  unfold userProfileParse at h
  split at h
  · split at h
    · split at h
      · split at h
        · split at h
          · rename_i hcond x1 st2 hst x2 hpref
            injection h with h2
            subst h2
            simp only [Bool.and_eq_true] at hcond
            simp only [UserProfile.valid, Bool.and_eq_true]
            exact ⟨hcond, userStatsParse_valid hst⟩
          · split at h
            · rename_i hcond x1 st2 hst x2 p2 hpref x3 pr2 hpr
              injection h with h2
              subst h2
              simp only [Bool.and_eq_true] at hcond
              simp only [UserProfile.valid, Bool.and_eq_true]
              exact ⟨hcond, userStatsParse_valid hst⟩
            · simp at h
        · simp at h
      · simp at h
    · simp at h
  · simp at h

/-- Parsing the JSON denotation of a schema-valid `UserProfile` gives it back
(`UserProfileSchema.parse(JSON.parse(JSON.stringify(u)))` succeeds with `u`). -/
theorem userProfileParse_toJson {u : UserProfile} (h : u.valid = true) :
    userProfileParse u.toJson = some u := by
  obtain ⟨idStr, nm, created, st, pr⟩ := u
  simp only [UserProfile.valid, Bool.and_eq_true] at h
  obtain ⟨⟨⟨⟨h1, h2⟩, h3⟩, h4⟩, h5⟩ := h
  have hcond : (isUuid idStr && decide (1 ≤ nm.length) && decide (nm.length ≤ 20) &&
      ratIsPosInt created) = true := by
    simp only [Bool.and_eq_true]
    exact ⟨⟨⟨h1, h2⟩, h3⟩, h4⟩
  cases pr with
  | none =>
    have e : userProfileParse (UserProfile.toJson ⟨idStr, nm, created, st, none⟩) =
        if (isUuid idStr && decide (1 ≤ nm.length) && decide (nm.length ≤ 20) &&
            ratIsPosInt created) = true then
          match userStatsParse st.toJson with
          | some st2 => some (⟨idStr, nm, created, st2, none⟩ : UserProfile)
          | none => none
        else none := rfl
    rw [e, if_pos hcond, userStatsParse_toJson h5]
  | some p =>
    have e : userProfileParse (UserProfile.toJson ⟨idStr, nm, created, st, some p⟩) =
        if (isUuid idStr && decide (1 ≤ nm.length) && decide (nm.length ≤ 20) &&
            ratIsPosInt created) = true then
          match userStatsParse st.toJson with
          | some st2 =>
            match userPreferencesParse p.toJson with
            | some pr2 => some (⟨idStr, nm, created, st2, some pr2⟩ : UserProfile)
            | none => none
          | none => none
        else none := rfl
    rw [e, if_pos hcond, userStatsParse_toJson h5, userPreferencesParse_toJson p]

/-- The `user` of a successfully validated envelope, when present, satisfies
the `UserProfileSchema` constraints. -/
theorem validateBackup_user_valid {j : Json} {b : BackupData}
    (h : validateBackup j = some b) :
    ∀ u, b.user = some u → u.valid = true := by
  intro u hu
  unfold validateBackup backupDataParse at h
  split at h
  · split at h
    · split at h
      · injection h with h2
        subst h2
        simp at hu
      · split at h
        · rename_i hparse
          injection h with h2
          subst h2
          simp only at hu
          injection hu with hu2
          subst hu2
          exact userProfileParse_valid hparse
        · simp at h
    · simp at h
  · simp at h

/-! ## Claim theorems -/

/-- C1: for every input value that fails envelope validation, `importBackup`
returns `false` and performs no store mutation — the whole store, in
particular the stored profile key, is left exactly as it was. -/
theorem importBackup_invalid_noop (j : Json) (s : Store)
    (h : validateBackup j = none) : importBackup j s = (false, s) := by
  simp [importBackup, h]

/-- Witness for C1 at the spec's example payload `{ "version": "1.0.0" }`. -/
theorem importBackup_invalid_noop_witness :
    validateBackup badEnvelopeJson = none ∧
    importBackup badEnvelopeJson Store.empty = (false, Store.empty) :=
  ⟨rfl, importBackup_invalid_noop badEnvelopeJson Store.empty rfl⟩

/-- C2: importing a validated envelope with `user: null` removes the stored
profile key and returns `true`; importing one with a valid `user` overwrites
the stored profile key with exactly that user's serialization — a value
independent of the previous store contents, so no field-level merge — and
returns `true`. -/
theorem importBackup_replaces (j : Json) (s : Store) (b : BackupData)
    (h : validateBackup j = some b) :
    (b.user = none → importBackup j s = (true, s.removeItem profileKey)) ∧
    (∀ u, b.user = some u →
      importBackup j s = (true, s.setItem profileKey (Stored.json u.toJson))) := by
  constructor
  · intro hu
    simp [importBackup, h, hu]
  · intro u hu
    have hv := validateBackup_user_valid h u hu
    simp [importBackup, h, hu, userProfileParse_toJson hv]

/-- Witness for C2: both branches at concrete validated envelopes. -/
theorem importBackup_replaces_witness :
    importBackup nullUserEnvelopeJson Store.empty =
      (true, Store.empty.removeItem profileKey) ∧
    importBackup aliceEnvelopeJson Store.empty =
      (true, Store.empty.setItem profileKey (Stored.json aliceProfile.toJson)) :=
  ⟨(importBackup_replaces nullUserEnvelopeJson Store.empty ⟨"1.0.0", 1, none⟩ rfl).1 rfl,
   (importBackup_replaces aliceEnvelopeJson Store.empty
      ⟨"1.0.0", 1, some aliceProfile⟩ rfl).2 aliceProfile rfl⟩

/-- C3 counterexample: the UserProfile schema ACCEPTS the name `"Bob!"` (its
name rule only bounds the length to 1–20); the claimed character-set rejection
is not performed by the schema. -/
theorem schema_accepts_bobBang :
    userProfileParse bobBangProfile.toJson = some bobBangProfile := rfl

/-- C3 (amended): the schema accepts `"Bob Smith-99_"`, rejects a name of 21
`'a'` characters by its length bound, and accepts `"Bob!"`; the character-set
check (rejecting `"Bob!"`) and the leading/trailing-space check are both
performed by the caller layer's `validateName`, not by the schema. -/
theorem name_validation_layers :
    userProfileParse bobSmithProfile.toJson = some bobSmithProfile ∧
    userProfileParse longNameProfile.toJson = none ∧
    userProfileParse bobBangProfile.toJson = some bobBangProfile ∧
    validateName "Bob Smith-99_" = none ∧
    validateName "Bob!" =
      some "Only letters, numbers, spaces, dash (-), and underscore (_) allowed" ∧
    validateName " Bob" = some "Name cannot start or end with spaces" ∧
    validateName "aaaaaaaaaaaaaaaaaaaaa" =
      some "Name must be 20 characters or less" :=
  ⟨rfl, rfl, rfl, rfl, rfl, rfl, rfl⟩

/-- C4: serializing a schema-valid profile through `saveToLocalStorage` and
validating the parsed result back through `loadFromLocalStorage` with the
UserProfile schema succeeds and returns the same profile. -/
theorem saveLoad_roundtrip (P : UserProfile) (s : Store) (ok : WriteOracle)
    (hP : P.valid = true) (hok : ok profileKey (Stored.json P.toJson) = true) :
    loadFromLocalStorage profileKey userProfileParse
      (saveToLocalStorage ok profileKey P.toJson s).2 = some P := by
  simp [saveToLocalStorage, trySetItem, hok, loadFromLocalStorage, Store.getItem,
        Store.setItem, Stored.truthy, Stored.jsonParse, userProfileParse_toJson hP]

/-- Witness for C4 at a concrete valid profile and a succeeding write. -/
theorem saveLoad_roundtrip_witness :
    aliceProfile.valid = true ∧
    loadFromLocalStorage profileKey userProfileParse
      (saveToLocalStorage (fun _ _ => true) profileKey aliceProfile.toJson
        Store.empty).2 = some aliceProfile :=
  ⟨rfl, saveLoad_roundtrip aliceProfile Store.empty (fun _ _ => true) rfl rfl⟩

/-- C5 counterexample: when the stored profile string is not parseable JSON,
`exportBackup` does not succeed — the `JSON.parse` exception escapes (modelled
by `none`), refuting "for every store state, exportBackup succeeds". -/
theorem exportBackup_throws_on_malformed :
    exportBackup 1 (Store.empty.setItem profileKey (Stored.malformed "not json"))
      = none := rfl

/-- C5 (amended): for every store state whose stored profile value, if
present, is parseable JSON, `exportBackup` succeeds without schema validation
and returns an envelope with version `"1.0.0"`, the call time as timestamp,
and the raw stored value (or `null` when the store is empty) as `user`. -/
theorem exportBackup_tolerant (now : Rat) (s : Store) :
    (s.getItem profileKey = none →
      exportBackup now s = some ⟨"1.0.0", now, Json.null⟩) ∧
    (∀ j, s.getItem profileKey = some (Stored.json j) →
      exportBackup now s = some ⟨"1.0.0", now, j⟩) := by
  constructor
  · intro h
    simp [exportBackup, h]
  · intro j h
    simp [exportBackup, h, Stored.truthy, Stored.jsonParse]

/-- Witness for C5 (amended): the empty store gives a `null`-user envelope. -/
theorem exportBackup_tolerant_witness :
    exportBackup 1 Store.empty = some ⟨"1.0.0", 1, Json.null⟩ :=
  (exportBackup_tolerant 1 Store.empty).1 rfl

/-- C6: `loadFromLocalStorage` returns `none` and never raises when the key
has never been set, when the stored string is not parseable JSON, or when the
parsed JSON fails schema validation; only a present, parseable, schema-valid
value is ever returned. -/
theorem load_absent_or_invalid_is_none {α : Type} (k : String)
    (schemaParse : Json → Option α) (s : Store) :
    (s.getItem k = none → loadFromLocalStorage k schemaParse s = none) ∧
    (∀ raw, s.getItem k = some (Stored.malformed raw) →
      loadFromLocalStorage k schemaParse s = none) ∧
    (∀ j, s.getItem k = some (Stored.json j) → schemaParse j = none →
      loadFromLocalStorage k schemaParse s = none) ∧
    (∀ t, loadFromLocalStorage k schemaParse s = some t →
      ∃ j, s.getItem k = some (Stored.json j) ∧ schemaParse j = some t) := by
  refine ⟨?_, ?_, ?_, ?_⟩
  · intro h
    simp [loadFromLocalStorage, h]
  · intro raw h
    simp only [loadFromLocalStorage, h]
    split <;> rfl
  · intro j h h2
    simp [loadFromLocalStorage, h, Stored.truthy, Stored.jsonParse, h2]
  · intro t h
    unfold loadFromLocalStorage at h
    split at h
    · exact absurd h (by simp)
    · rename_i stored heq
      cases stored with
      | json j =>
        simp only [Stored.truthy, Stored.jsonParse, if_true] at h
        exact ⟨j, heq, h⟩
      | malformed raw =>
        split at h
        · simp [Stored.jsonParse] at h
        · exact absurd h (by simp)

/-- Witness for C6: a never-set key loads as `none`. -/
theorem load_absent_or_invalid_is_none_witness :
    loadFromLocalStorage profileKey userProfileParse Store.empty = none :=
  (load_absent_or_invalid_is_none profileKey userProfileParse Store.empty).1 rfl

/-- C7: `saveToLocalStorage` never propagates a thrown error: a failed write
is caught (store left unchanged) and only logged, a successful write updates
the key, and the returned value is `()` (void) in both cases, giving the
caller no signal distinguishing success from silent failure. -/
theorem saveToLocalStorage_never_throws (ok : WriteOracle) (k : String)
    (data : Json) (s : Store) :
    (ok k (Stored.json data) = false → saveToLocalStorage ok k data s = ((), s)) ∧
    (ok k (Stored.json data) = true →
      saveToLocalStorage ok k data s = ((), s.setItem k (Stored.json data))) ∧
    (saveToLocalStorage ok k data s).1 = () := by
  refine ⟨?_, ?_, rfl⟩
  · intro h
    simp [saveToLocalStorage, trySetItem, h]
  · intro h
    simp [saveToLocalStorage, trySetItem, h]

/-- Witness for C7: a store that always refuses writes (e.g. quota exceeded)
still gives a normal return with the store unchanged. -/
theorem saveToLocalStorage_never_throws_witness :
    saveToLocalStorage (fun _ _ => false) profileKey Json.null Store.empty
      = ((), Store.empty) :=
  (saveToLocalStorage_never_throws (fun _ _ => false) profileKey Json.null
    Store.empty).1 rfl

/-- C8: `clearAllLocalStorage` removes exactly the keys of `STORAGE_KEYS`
(presently the single profile key) and leaves every other key unchanged. -/
theorem clearAllLocalStorage_exact (s : Store) (k : String) :
    clearAllLocalStorage s k = if k ∈ STORAGE_KEYS then none else s k := by
  simp only [clearAllLocalStorage, STORAGE_KEYS, List.foldl, Store.removeItem]
  simp [List.mem_singleton]

/-- C9: whenever `validateBackup` succeeds with a non-null user, the strict
re-validation of that user inside `importBackup` also succeeds, so the
defense-in-depth branch is never the cause of `importBackup` returning
`false`: on such inputs `importBackup` returns `true` on every store. -/
theorem revalidation_never_fails (j : Json) (b : BackupData) (u : UserProfile)
    (h : validateBackup j = some b) (hu : b.user = some u) :
    userProfileParse u.toJson = some u ∧
    ∀ s : Store, (importBackup j s).1 = true := by
  have hv := validateBackup_user_valid h u hu
  have hr := userProfileParse_toJson hv
  refine ⟨hr, fun s => ?_⟩
  simp [importBackup, h, hu, hr]

/-- Witness for C9 at a concrete envelope with a non-null user. -/
theorem revalidation_never_fails_witness :
    userProfileParse aliceProfile.toJson = some aliceProfile ∧
    (importBackup aliceEnvelopeJson Store.empty).1 = true :=
  ⟨(revalidation_never_fails aliceEnvelopeJson ⟨"1.0.0", 1, some aliceProfile⟩
      aliceProfile rfl rfl).1,
   (revalidation_never_fails aliceEnvelopeJson ⟨"1.0.0", 1, some aliceProfile⟩
      aliceProfile rfl rfl).2 Store.empty⟩

/-- C10: `validateBackup` enforces no fixed version string and no integrality,
positivity or zero-exclusion on the timestamp: every version string and every
rational timestamp (zero, negative and non-integer included) validate. -/
theorem validateBackup_version_timestamp_lax (v : String) (t : Rat) :
    validateBackup (Json.obj [("version", Json.str v), ("timestamp", Json.num t),
      ("user", Json.null)]) = some ⟨v, t, none⟩ := rfl

end Squaredance
